import Mathlib

/-!
Shallow embedding of the quote-scraping service in src/main.py: the fetcher,
the two markup extractors, URL construction and the aggregation pipeline,
together with theorems checking the claims of the specification.
-/

namespace Quotia

/-! Python string primitives used by the source. The models are ASCII-level:
Char.toLower mirrors the basic-latin lowering of str.lower, and
Char.isWhitespace mirrors the space, tab, carriage-return and newline cases
of the no-argument str.strip. -/

/-- Python str.strip(chars): remove the characters of cs from both ends. -/
def pyStripChars (cs : List Char) (s : String) : String :=
  ⟨((s.toList.dropWhile (cs.contains ·)).reverse.dropWhile (cs.contains ·)).reverse⟩

/-- Python str.strip() with no argument: remove surrounding whitespace. -/
def pyStrip (s : String) : String :=
  ⟨((s.toList.dropWhile Char.isWhitespace).reverse.dropWhile Char.isWhitespace).reverse⟩

/-- Python str.lower(), modelled on basic-latin letters. -/
def pyLower (s : String) : String :=
  ⟨s.toList.map Char.toLower⟩

/-- Does the pattern (first argument) occur at the start of the list? -/
def beginsWith : List Char → List Char → Bool
  | [], _ => true
  | _ :: _, [] => false
  | p :: ps, c :: cs => p == c && beginsWith ps cs

/-- Substring test, Python needle in hay. -/
def containsSub (needle : List Char) : List Char → Bool
  | [] => beginsWith needle []
  | c :: rest => beginsWith needle (c :: rest) || containsSub needle rest

/-- First occurrence of the separator in a list: the text before it and the
text after it, or none when the separator does not occur. -/
def findSep (sep : List Char) : List Char → Option (List Char × List Char)
  | [] => none
  | c :: rest =>
    if beginsWith sep (c :: rest) then some ([], (c :: rest).drop sep.length)
    else
      match findSep sep rest with
      | some (pre, post) => some (c :: pre, post)
      | none => none

/-- Fuelled worker for the split: Python str.split keeps cutting at each
occurrence of the separator; the fuel (one more than the string length)
always suffices for a non-empty separator. -/
def pySplitAux (sep : List Char) : Nat → List Char → List (List Char)
  | 0, s => [s]
  | fuel + 1, s =>
    match findSep sep s with
    | none => [s]
    | some (pre, post) => pre :: pySplitAux sep fuel post

/-- Python s.split(sep) for a non-empty separator. -/
def pySplit (s sep : String) : List String :=
  (pySplitAux sep.toList (s.toList.length + 1) s.toList).map fun l => ⟨l⟩

/-! Data model: the quote records built by the extractors, and the view of a
parsed page that the BeautifulSoup capability exposes to them. -/

/-- A quote record as assembled by the extractors. -/
structure Quote where
  text : String
  author : String
  source : String
deriving DecidableEq

/-- Characters removed from quote text by strip in the source, the space and
the straight double quote. -/
def quoteStripChars : List Char := [' ', '"']

/-- One div.quote container of a toscrape page, seen through the HTML-tree
capability: the text content of the span.text and small.author sub-elements,
when those elements are found. -/
structure ToscrapeBlock where
  textElem : Option String
  authorElem : Option String
deriving DecidableEq

/-- One div.quoteText container of a goodreads page: the full text content
of the block as returned by get_text with strip, and the text content of the
span.authorOrTitle sub-element when that element is found. -/
structure GoodreadsBlock where
  fullText : String
  authorElem : Option String
deriving DecidableEq

/-- The separator literal the source splits on at line 79 of src/main.py:
the cp1252 mojibake of the UTF-8 bytes of U+2015 HORIZONTAL BAR, three
characters U+00E2, U+20AC, U+2022. -/
def goodreadsSep : String := "â€•"

/-- Body of the loop of scrape_quotes_toscrape: when both the text and the
author elements are found, the quote appended for this block, built from the
stripped element texts; otherwise nothing. -/
def toscrapeQuoteOf (b : ToscrapeBlock) : Option Quote :=
  match b.textElem, b.authorElem with
  | some t, some a =>
      some { text := pyStripChars quoteStripChars t, author := pyStrip a,
             source := "toscrape" }
  | _, _ => none

/-- Function scrape_quotes_toscrape, src/main.py lines 57 to 72: one pass
over the div.quote blocks, appending a quote for each block whose text and
author elements are both found. -/
def scrape_quotes_toscrape (blocks : List ToscrapeBlock) : List Quote :=
  blocks.filterMap toscrapeQuoteOf

/-- Body of the loop of scrape_quotes_goodreads: split the full block text
on the separator literal; when the resulting list is non-empty (truthy) and
the author element is found, the quote appended for this block, built from
the first segment and the author text; otherwise nothing. -/
def goodreadsQuoteOf (b : GoodreadsBlock) : Option Quote :=
  match pySplit b.fullText goodreadsSep, b.authorElem with
  | p0 :: _, some a =>
      some { text := pyStripChars quoteStripChars p0, author := pyStrip a,
             source := "goodreads" }
  | _, _ => none

/-- Function scrape_quotes_goodreads, src/main.py lines 74 to 89: one pass
over the div.quoteText blocks, appending a quote for each block that has an
author element, taking the text from the segment before the separator. -/
def scrape_quotes_goodreads (blocks : List GoodreadsBlock) : List Quote :=
  blocks.filterMap goodreadsQuoteOf

/-! The fetcher and the per-URL pipeline. -/

/-- Outcome of the one outbound GET issued by fetch: a response with a
status code and a decoded body, a timeout, or another transport error. -/
inductive FetchOutcome where
  | status (code : Nat) (body : String)
  | timeout
  | transport (msg : String)
deriving DecidableEq

/-- Result of fetch: the decoded body, or the HTTPException raised, with its
status code and detail message. -/
inductive FetchResult where
  | ok (body : String)
  | error (statusCode : Nat) (detail : String)
deriving DecidableEq

/-- Rendering of an HTTPException by the web framework when it is
interpolated into a format string, modelled after the library: the status
code, a colon and a space, then the detail text. Used only inside the
detail of the re-raised exception below. -/
def httpExceptionStr (code : Nat) (detail : String) : String :=
  toString code ++ ": " ++ detail

/-- Function fetch, src/main.py lines 42 to 55: only a status-200 response
returns its body. A response with any other status raises an HTTPException
carrying that status at line 48, but that exception is itself an Exception
raised inside the try block, so the catch-all handler at line 53 catches it
and re-raises a fresh HTTPException with status 500 whose detail embeds the
rendering of the caught one; the original status survives only inside the
detail text. A timeout is caught by its dedicated handler and raises 504;
any other transport error reaches the catch-all and raises 500. -/
def fetch (url : String) (o : FetchOutcome) : FetchResult :=
  match o with
  | .status code body =>
      if code ≠ 200 then
        .error 500 ("Failed to fetch " ++ url ++ ": "
          ++ httpExceptionStr code ("Failed to fetch " ++ url))
      else .ok body
  | .timeout => .error 504 "Request timeout"
  | .transport msg => .error 500 ("Failed to fetch " ++ url ++ ": " ++ msg)

/-- True when the fetch raised. -/
def FetchResult.isErr : FetchResult → Bool
  | .ok _ => false
  | .error _ _ => true

/-- The status code carried by the exception a fetch raised, when it did. -/
def FetchResult.errCode : FetchResult → Option Nat
  | .ok _ => none
  | .error code _ => some code

/-- What parsing an HTML string exposes to the two extractors. -/
structure PageView where
  toscrapeBlocks : List ToscrapeBlock
  goodreadsBlocks : List GoodreadsBlock

/-- Function scrape_url, src/main.py lines 91 to 106: fetch the URL, parse
the body, and dispatch on a substring test of the URL; any exception, in
particular a failed fetch, is caught and yields the empty list. -/
def scrape_url (parse : String → PageView) (url : String) (o : FetchOutcome) :
    List Quote :=
  match fetch url o with
  | .error _ _ => []
  | .ok html =>
      if containsSub "toscrape".toList url.toList then
        scrape_quotes_toscrape (parse html).toscrapeBlocks
      else if containsSub "goodreads".toList url.toList then
        scrape_quotes_goodreads (parse html).goodreadsBlocks
      else []

/-! URL construction and the aggregation endpoint. -/

/-- The two configured sources. -/
inductive Source where
  | toscrape
  | goodreads
deriving DecidableEq

/-- The static base_urls table of src/main.py lines 123 to 126, in insertion
order. -/
def sourceOrder : List Source := [.toscrape, .goodreads]

/-- Base URL of each source. -/
def baseUrl : Source → String
  | .toscrape => "http://quotes.toscrape.com"
  | .goodreads => "https://www.goodreads.com/quotes"

/-- Python truthiness of the optional category query value: a missing value
and the empty string are falsy. -/
def pyTruthy : Option String → Bool
  | none => false
  | some s => s != ""

/-- URL construction in get_quotes, src/main.py lines 128 to 134: when the
category is truthy it is lower-cased then stripped and each source
contributes its base URL extended with the tag path; otherwise each source
contributes its base URL alone. -/
def buildUrls (category : Option String) : List String :=
  if pyTruthy category then
    sourceOrder.map fun s =>
      baseUrl s ++ "/tag/" ++ pyStrip (pyLower (category.getD ""))
  else
    sourceOrder.map baseUrl

/-- The URL the table assigns to one source, for a given category. -/
def urlFor (category : Option String) (s : Source) : String :=
  if pyTruthy category then
    baseUrl s ++ "/tag/" ++ pyStrip (pyLower (category.getD ""))
  else
    baseUrl s

/-- The per-request environment: the response of the network for each URL,
and the HTML-parsing capability. -/
structure World where
  outcome : String → FetchOutcome
  parse : String → PageView

/-- The per-URL tasks launched by get_quotes, in URL-list order. -/
def tasksFor (w : World) (category : Option String) : List (List Quote) :=
  (buildUrls category).map fun u => scrape_url w.parse u (w.outcome u)

/-- Function get_quotes, src/main.py lines 136 to 149: gather returns the
task results in task order and the loop extends all_quotes with each list
result. In this embedding every task returns a list, so the isinstance
filter keeps every result. -/
def get_quotes (w : World) (category : Option String) : List Quote :=
  (tasksFor w category).foldl (fun acc r => acc ++ r) []

/-- Completion-order model of the gather step: the tasks finish in an
arbitrary order, delivering pairs of a task index and that task's result;
gather buffers each result in the slot of its task index and returns the
slots in task order, not in arrival order. -/
def gatherFromEvents (n : Nat) (events : List (Nat × List Quote)) :
    List (List Quote) :=
  (List.range n).map fun i =>
    ((events.filter fun e => e.1 == i).map Prod.snd).headD []

/-- Function get_quotes with the gather step spelled out on a list of
completion events instead of the task list. -/
def get_quotes_events (category : Option String)
    (events : List (Nat × List Quote)) : List Quote :=
  (gatherFromEvents (buildUrls category).length events).foldl
    (fun acc r => acc ++ r) []

/-! Concrete worlds used to witness the claim theorems on specific inputs. -/

/-- A world where the toscrape fetch times out and the goodreads fetch
succeeds with a page holding one quote block. -/
def worldOneFailure : World where
  outcome := fun u =>
    if containsSub "toscrape".toList u.toList then .timeout
    else .status 200 "goodreads page"
  parse := fun _ =>
    { toscrapeBlocks := []
      goodreadsBlocks := [{ fullText := "Hopeâ€•Ann", authorElem := some "Ann" }] }

/-- A world where both fetches succeed, each page holding one quote block. -/
def worldBothSucceed : World where
  outcome := fun u =>
    if containsSub "toscrape".toList u.toList then .status 200 "A"
    else .status 200 "B"
  parse := fun html =>
    if html == "A" then
      { toscrapeBlocks := [{ textElem := some "T", authorElem := some "Ann" }]
        goodreadsBlocks := [] }
    else
      { toscrapeBlocks := []
        goodreadsBlocks := [{ fullText := "Gâ€•Bob", authorElem := some "Bob" }] }

/-! Helper lemmas about the embedding. -/

/-- The split result is never the empty list, whatever the fuel. -/
theorem pySplitAux_ne_nil (sep : List Char) (fuel : Nat) (s : List Char) :
    pySplitAux sep fuel s ≠ [] := by
  cases fuel with
  | zero => simp [pySplitAux]
  | succ n =>
      unfold pySplitAux
      cases findSep sep s with
      | none => simp
      | some pq => simp

/-- The split of a string is never the empty list. -/
theorem pySplit_ne_nil (s sep : String) : pySplit s sep ≠ [] := by
  unfold pySplit
  intro h
  exact pySplitAux_ne_nil _ _ _ (List.map_eq_nil_iff.mp h)

/-- Converting a valid code point to a character and back is the identity. -/
theorem toNat_ofNat_valid (n : Nat) (h : n.isValidChar) :
    (Char.ofNat n).toNat = n := by
  rw [Char.ofNat, dif_pos h]
  rfl

/-- A character whose code point is none of the four whitespace code points
is not whitespace. -/
theorem isWhitespace_eq_false_of_toNat (c : Char) (h32 : c.toNat ≠ 32)
    (h9 : c.toNat ≠ 9) (h13 : c.toNat ≠ 13) (h10 : c.toNat ≠ 10) :
    c.isWhitespace = false := by
  simp only [Char.isWhitespace, Bool.or_eq_false_iff, decide_eq_false_iff_not]
  refine ⟨⟨⟨?_, ?_⟩, ?_⟩, ?_⟩ <;> intro heq
  · exact h32 (by rw [heq]; decide)
  · exact h9 (by rw [heq]; decide)
  · exact h13 (by rw [heq]; decide)
  · exact h10 (by rw [heq]; decide)

/-- Lowering a character does not change whether it is whitespace. -/
theorem isWhitespace_toLower (c : Char) :
    (Char.toLower c).isWhitespace = c.isWhitespace := by
  have hdef : Char.toLower c
      = if c.toNat ≥ 65 ∧ c.toNat ≤ 90 then Char.ofNat (c.toNat + 32) else c :=
    rfl
  rw [hdef]
  by_cases h : c.toNat ≥ 65 ∧ c.toNat ≤ 90
  · rw [if_pos h]
    have hv : Nat.isValidChar (c.toNat + 32) := Or.inl (by omega)
    have ht : (Char.ofNat (c.toNat + 32)).toNat = c.toNat + 32 :=
      toNat_ofNat_valid _ hv
    rw [isWhitespace_eq_false_of_toNat _ (by omega) (by omega) (by omega)
          (by omega),
        isWhitespace_eq_false_of_toNat c (by omega) (by omega) (by omega)
          (by omega)]
  · rw [if_neg h]

/-- Dropping whitespace commutes with lowering, on character lists. -/
theorem dropWhile_ws_map_toLower (l : List Char) :
    (l.map Char.toLower).dropWhile Char.isWhitespace
      = (l.dropWhile Char.isWhitespace).map Char.toLower := by
  induction l with
  | nil => rfl
  | cons c t ih =>
      simp only [List.map_cons, List.dropWhile_cons, isWhitespace_toLower]
      cases h : c.isWhitespace <;> simp [h, ih]

/-- Stripping whitespace commutes with lowering: the normalization the code
performs, lower then strip, equals the one the specification writes, strip
then lower. -/
theorem pyStrip_pyLower_comm (s : String) :
    pyStrip (pyLower s) = pyLower (pyStrip s) := by
  unfold pyStrip pyLower
  apply congrArg String.mk
  show ((((s.toList.map Char.toLower).dropWhile _).reverse).dropWhile _).reverse
      = (((((s.toList.dropWhile _).reverse).dropWhile _).reverse).map Char.toLower)
  rw [dropWhile_ws_map_toLower, ← List.map_reverse, dropWhile_ws_map_toLower,
    ← List.map_reverse]

/-- The URL list is always the pair of per-source URLs, in table order. -/
theorem buildUrls_pair (c : Option String) :
    buildUrls c = [urlFor c .toscrape, urlFor c .goodreads] := by
  unfold buildUrls urlFor sourceOrder
  cases h : pyTruthy c <;> simp [h]

/-- The task list is always the pair of per-source scrape calls. -/
theorem tasksFor_pair (w : World) (c : Option String) :
    tasksFor w c
      = [scrape_url w.parse (urlFor c .toscrape) (w.outcome (urlFor c .toscrape)),
         scrape_url w.parse (urlFor c .goodreads)
           (w.outcome (urlFor c .goodreads))] := by
  rw [tasksFor, buildUrls_pair]
  rfl

/-- The endpoint output is the concatenation of the two per-source results,
toscrape first. -/
theorem get_quotes_concat (w : World) (c : Option String) :
    get_quotes w c
      = scrape_url w.parse (urlFor c .toscrape) (w.outcome (urlFor c .toscrape))
          ++ scrape_url w.parse (urlFor c .goodreads)
              (w.outcome (urlFor c .goodreads)) := by
  rw [get_quotes, tasksFor_pair]
  simp

/-- A URL whose fetch raises contributes the empty list. -/
theorem scrape_url_of_err (p : String → PageView) (url : String)
    (o : FetchOutcome) (h : (fetch url o).isErr = true) :
    scrape_url p url o = [] := by
  unfold scrape_url
  cases hf : fetch url o with
  | ok body => rw [hf] at h; simp [FetchResult.isErr] at h
  | error code d => rfl

/-! The claim theorems. -/

/-- C1: failure isolation of the Aggregator. If the toscrape fetch raises
while goodreads succeeds, get_quotes returns exactly the goodreads result;
symmetrically for the other side; and when both fetches raise, get_quotes
returns the empty quote list. The embedding is a total function, so no
per-source failure ever propagates as a request-level error. -/
theorem C1_failure_isolation (w : World) (c : Option String) :
    ((fetch (urlFor c .toscrape) (w.outcome (urlFor c .toscrape))).isErr = true →
        get_quotes w c
          = scrape_url w.parse (urlFor c .goodreads)
              (w.outcome (urlFor c .goodreads)))
  ∧ ((fetch (urlFor c .goodreads) (w.outcome (urlFor c .goodreads))).isErr = true →
        get_quotes w c
          = scrape_url w.parse (urlFor c .toscrape)
              (w.outcome (urlFor c .toscrape)))
  ∧ ((fetch (urlFor c .toscrape) (w.outcome (urlFor c .toscrape))).isErr = true →
     (fetch (urlFor c .goodreads) (w.outcome (urlFor c .goodreads))).isErr = true →
        get_quotes w c = []) := by
  refine ⟨fun h0 => ?_, fun h1 => ?_, fun h0 h1 => ?_⟩
  · rw [get_quotes_concat, scrape_url_of_err _ _ _ h0, List.nil_append]
  · rw [get_quotes_concat, scrape_url_of_err _ _ _ h1, List.append_nil]
  · rw [get_quotes_concat, scrape_url_of_err _ _ _ h0,
      scrape_url_of_err _ _ _ h1, List.nil_append]

/-- Witness for C1 in a concrete world where the toscrape fetch times out
and the goodreads fetch succeeds. -/
theorem C1_failure_isolation_witness :
    get_quotes worldOneFailure none
      = scrape_url worldOneFailure.parse (urlFor none .goodreads)
          (worldOneFailure.outcome (urlFor none .goodreads)) :=
  (C1_failure_isolation worldOneFailure none).1 (by decide)

/-- C3: URL construction. For a present non-empty category the URL of each
source is its base URL, the tag path and the lower-cased, whitespace-trimmed
category; for an absent category it is the base URL alone. The code lowers
then strips while the claim writes strip then lower; the two agree by the
commuting lemma. -/
theorem C3_url_construction (c : String) (h : c ≠ "") :
    buildUrls (some c)
        = [baseUrl .toscrape ++ "/tag/" ++ pyLower (pyStrip c),
           baseUrl .goodreads ++ "/tag/" ++ pyLower (pyStrip c)]
  ∧ buildUrls none = [baseUrl .toscrape, baseUrl .goodreads] := by
  constructor
  · have ht : pyTruthy (some c) = true := by simp [pyTruthy, h]
    rw [buildUrls_pair]
    simp [urlFor, ht, pyStrip_pyLower_comm]
  · rfl

/-- Witness for C3 at a category with surrounding blanks and upper case. -/
theorem C3_url_construction_witness :
    buildUrls (some " LIFE ")
        = [baseUrl .toscrape ++ "/tag/" ++ pyLower (pyStrip " LIFE "),
           baseUrl .goodreads ++ "/tag/" ++ pyLower (pyStrip " LIFE ")]
  ∧ buildUrls none = [baseUrl .toscrape, baseUrl .goodreads] :=
  C3_url_construction " LIFE " (by decide)

/-- C9: source-set invariant. For every category, present or absent, the
URL list is exactly one URL per key of the static source table, in table
order; the category never changes which sources are queried or how many
URLs are built. -/
theorem C9_source_set (c : Option String) :
    buildUrls c = [urlFor c .toscrape, urlFor c .goodreads]
  ∧ (buildUrls c).length = sourceOrder.length :=
  ⟨buildUrls_pair c, by rw [buildUrls_pair]; rfl⟩

/-- C10: a present but empty category is treated exactly like an absent
one, because the presence test is Python truthiness of the string: the
constructed URLs are the bare base URLs with no tag path. -/
theorem C10_empty_category :
    buildUrls (some "") = buildUrls none
  ∧ buildUrls (some "") = [baseUrl .toscrape, baseUrl .goodreads] :=
  ⟨rfl, rfl⟩

/-- C5 fails as stated: a div.quote block whose text element holds a single
space passes the presence test, so a quote with empty text is emitted
rather than dropped. -/
theorem C5_counterexample :
    scrape_quotes_toscrape [{ textElem := some " ", authorElem := some "Ann" }]
        = [{ text := "", author := "Ann", source := "toscrape" }]
  ∧ scrape_quotes_toscrape [{ textElem := some " ", authorElem := some "Ann" }]
        ≠ [] :=
  ⟨by decide, by decide⟩

/-- C5 (amended): each extractor emits at most one quote per container
block; the emptiness guarantee does not hold, since the code only tests
that the elements are present, not that their trimmed text is non-empty. -/
theorem C5_length_bound (bA : List ToscrapeBlock) (bB : List GoodreadsBlock) :
    (scrape_quotes_toscrape bA).length ≤ bA.length
  ∧ (scrape_quotes_goodreads bB).length ≤ bB.length :=
  ⟨List.length_filterMap_le _ _, List.length_filterMap_le _ _⟩

/-- C6 fails as stated, twice over: 204 is a 2xx status, yet fetch raises
instead of returning the body, because the code compares the status against
200 alone; and the escaping exception does not carry the response status
either, because the exception raised at line 48 is re-caught by the
catch-all handler and re-raised with status 500. -/
theorem C6_counterexample :
    (200 ≤ 204 ∧ 204 < 300)
  ∧ fetch "http://quotes.toscrape.com" (.status 204 "body") ≠ .ok "body"
  ∧ (fetch "http://quotes.toscrape.com" (.status 204 "body")).isErr = true
  ∧ (fetch "http://quotes.toscrape.com" (.status 204 "body")).errCode
      = some 500 :=
  ⟨by decide, by decide, by decide, by decide⟩

/-- C6 (amended): a fetch that receives a response succeeds with the
decoded body exactly when the status is 200; a response with any other
status, 2xx included, escapes as an error carrying status code 500, the
original status surviving only inside the detail text; a timeout escapes
as an error carrying 504. -/
theorem C6_status_classification (url body : String) (code : Nat) :
    (fetch url (.status code body) = .ok body ↔ code = 200)
  ∧ (code ≠ 200 → (fetch url (.status code body)).errCode = some 500)
  ∧ (fetch url .timeout).errCode = some 504 := by
  refine ⟨⟨?_, ?_⟩, ?_, ?_⟩
  · intro h
    by_contra hc
    simp [fetch, hc] at h
  · intro h
    subst h
    simp [fetch]
  · intro h
    simp [fetch, h, FetchResult.errCode]
  · rfl

/-- Witness for C6 (amended) at statuses 200 and 201. -/
theorem C6_status_classification_witness :
    fetch "u" (.status 200 "b") = .ok "b"
  ∧ (fetch "u" (.status 201 "b")).errCode = some 500 :=
  ⟨(C6_status_classification "u" "b" 200).1.mpr rfl,
   (C6_status_classification "u" "b" 201).2.1 (by decide)⟩

/-- C2: the code splits on the three-character mojibake literal instead of
the U+2015 horizontal bar, so on the correctly decoded fixture the block
text is never split: the emitted quote keeps the separator and the author
name inside its text, instead of the claimed segment before the separator.
Splitting the same fixture on the real U+2015 character does yield the
claimed segments, confirming the intent recorded in the specification. -/
theorem C2_separator_bug :
    scrape_quotes_goodreads
        [{ fullText := "Be the change―Mahatma Gandhi",
           authorElem := some "Mahatma Gandhi" }]
        = [{ text := "Be the change―Mahatma Gandhi", author := "Mahatma Gandhi",
             source := "goodreads" }]
  ∧ scrape_quotes_goodreads
        [{ fullText := "Be the change―Mahatma Gandhi",
           authorElem := some "Mahatma Gandhi" }]
        ≠ [{ text := "Be the change", author := "Mahatma Gandhi",
             source := "goodreads" }]
  ∧ pySplit "Be the change―Mahatma Gandhi" "―"
      = ["Be the change", "Mahatma Gandhi"]
  ∧ pySplit "Be the change―Mahatma Gandhi" goodreadsSep
      = ["Be the change―Mahatma Gandhi"] :=
  ⟨by decide, by decide, by decide, by decide⟩

/-- C7 fails as stated for the goodreads extractor: the split in Python
always returns at least one segment, so a block whose text begins with the
separator has an empty, unusable first segment and is still emitted with
empty text instead of being skipped. -/
theorem C7_counterexample :
    scrape_quotes_goodreads
        [{ fullText := "â€•Gandhi", authorElem := some "Gandhi" }]
        = [{ text := "", author := "Gandhi", source := "goodreads" }]
  ∧ scrape_quotes_goodreads
        [{ fullText := "â€•Gandhi", authorElem := some "Gandhi" }]
        ≠ [] :=
  ⟨by decide, by decide⟩

/-- C7 (amended): a toscrape block missing its text or author element, and
a goodreads block missing its author element, are skipped and do not abort
extraction of the surrounding blocks; the goodreads split itself never
causes a skip. -/
theorem C7_skip_policy (pre post : List ToscrapeBlock) (b : ToscrapeBlock)
    (hb : b.textElem = none ∨ b.authorElem = none)
    (preG postG : List GoodreadsBlock) (g : GoodreadsBlock)
    (hg : g.authorElem = none) :
    scrape_quotes_toscrape (pre ++ b :: post)
        = scrape_quotes_toscrape (pre ++ post)
  ∧ scrape_quotes_goodreads (preG ++ g :: postG)
      = scrape_quotes_goodreads (preG ++ postG) := by
  constructor
  · have hbn : toscrapeQuoteOf b = none := by
      rcases hb with h | h
      · cases ha : b.authorElem <;> simp [toscrapeQuoteOf, h, ha]
      · cases ht : b.textElem <;> simp [toscrapeQuoteOf, h, ht]
    simp [scrape_quotes_toscrape, List.filterMap_append, List.filterMap_cons,
      hbn]
  · have hgn : goodreadsQuoteOf g = none := by
      cases hs : pySplit g.fullText goodreadsSep <;>
        simp [goodreadsQuoteOf, hg, hs]
    simp [scrape_quotes_goodreads, List.filterMap_append, List.filterMap_cons,
      hgn]

/-- Witness for C7 (amended): a malformed block between two good ones is
dropped and the good ones survive. -/
theorem C7_skip_policy_witness :
    scrape_quotes_toscrape
        ([{ textElem := some "T", authorElem := some "Ann" }]
          ++ { textElem := none, authorElem := some "Bob" }
            :: [{ textElem := some "U", authorElem := some "Cid" }])
        = scrape_quotes_toscrape
            ([{ textElem := some "T", authorElem := some "Ann" }]
              ++ [{ textElem := some "U", authorElem := some "Cid" }])
  ∧ scrape_quotes_goodreads
        ([] ++ { fullText := "X", authorElem := none }
          :: [{ fullText := "Yâ€•Zed", authorElem := some "Zed" }])
      = scrape_quotes_goodreads
          ([] ++ [{ fullText := "Yâ€•Zed", authorElem := some "Zed" }]) :=
  C7_skip_policy _ _ _ (Or.inl rfl) _ _ _ rfl

/-- C8 fails as stated: surrounding curly quotation marks are not stripped
from the quote text, because the code strips only the space and the
straight double quote. -/
theorem C8_counterexample :
    scrape_quotes_toscrape
        [{ textElem := some "“Be yourself.”", authorElem := some "Oscar Wilde" }]
        = [{ text := "“Be yourself.”", author := "Oscar Wilde",
             source := "toscrape" }]
  ∧ scrape_quotes_toscrape
        [{ textElem := some "“Be yourself.”", authorElem := some "Oscar Wilde" }]
        ≠ [{ text := "Be yourself.", author := "Oscar Wilde",
             source := "toscrape" }] :=
  ⟨by decide, by decide⟩

/-- C8 (amended): both extractors trim the quote text with the same rule,
removing surrounding spaces and straight double quotes; a text surrounded
by curly quotation marks is left unchanged, while spaces and straight
quotes are removed. -/
theorem C8_trimming (t a ft : String) :
    scrape_quotes_toscrape [{ textElem := some t, authorElem := some a }]
        = [{ text := pyStripChars quoteStripChars t, author := pyStrip a,
             source := "toscrape" }]
  ∧ scrape_quotes_goodreads [{ fullText := ft, authorElem := some a }]
        = [{ text := pyStripChars quoteStripChars
                ((pySplit ft goodreadsSep).headD ""),
             author := pyStrip a, source := "goodreads" }]
  ∧ pyStripChars quoteStripChars " \"q\" " = "q"
  ∧ pyStripChars quoteStripChars "“q”" = "“q”" := by
  refine ⟨rfl, ?_, by decide, by decide⟩
  cases hs : pySplit ft goodreadsSep with
  | nil => exact absurd hs (pySplit_ne_nil _ _)
  | cons p0 rest =>
      simp [scrape_quotes_goodreads, goodreadsQuoteOf, hs]

/-- C4: merge order. For any list of completion events that delivers each
task result once, in whatever order the concurrent tasks finish, the
buffered gather followed by the merge loop yields the concatenation of the
per-source results in static source-table order, toscrape before goodreads,
and agrees with the direct endpoint function. -/
theorem C4_merge_order (w : World) (c : Option String)
    (events : List (Nat × List Quote))
    (h : events.Perm (tasksFor w c).enum) :
    get_quotes_events c events
        = scrape_url w.parse (urlFor c .toscrape)
            (w.outcome (urlFor c .toscrape))
          ++ scrape_url w.parse (urlFor c .goodreads)
              (w.outcome (urlFor c .goodreads))
  ∧ get_quotes_events c events = get_quotes w c := by
  have htasks := tasksFor_pair w c
  set t0 := scrape_url w.parse (urlFor c .toscrape)
      (w.outcome (urlFor c .toscrape)) with ht0
  set t1 := scrape_url w.parse (urlFor c .goodreads)
      (w.outcome (urlFor c .goodreads)) with ht1
  have henum : (tasksFor w c).enum = [(0, t0), (1, t1)] := by
    rw [htasks]; rfl
  rw [henum] at h
  have h0 : events.filter (fun e => e.1 == 0) = [(0, t0)] := by
    have hp := List.Perm.filter (fun e => e.1 == 0) h
    simp only [List.filter_cons, List.filter_nil] at hp
    exact List.perm_singleton.mp (by simpa using hp)
  have h1 : events.filter (fun e => e.1 == 1) = [(1, t1)] := by
    have hp := List.Perm.filter (fun e => e.1 == 1) h
    simp only [List.filter_cons, List.filter_nil] at hp
    exact List.perm_singleton.mp (by simpa using hp)
  have hlen : (buildUrls c).length = 2 := by rw [buildUrls_pair]; rfl
  have e0 : ((events.filter fun e => e.1 == 0).map Prod.snd).headD [] = t0 := by
    rw [h0]; rfl
  have e1 : ((events.filter fun e => e.1 == 1).map Prod.snd).headD [] = t1 := by
    rw [h1]; rfl
  have hmain : get_quotes_events c events = t0 ++ t1 := by
    rw [get_quotes_events, hlen, gatherFromEvents]
    have hr : List.range 2 = [0, 1] := rfl
    rw [hr]
    simp only [List.map_cons, List.map_nil, List.foldl_cons, List.foldl_nil,
      List.nil_append]
    rw [e0, e1]
  exact ⟨hmain, by rw [hmain, get_quotes_concat]⟩

/-- Witness for C4: in a world where both sources succeed, delivering the
completion events in reversed order still yields the table-order
concatenation. -/
theorem C4_merge_order_witness :
    get_quotes_events none (tasksFor worldBothSucceed none).enum.reverse
        = scrape_url worldBothSucceed.parse (urlFor none .toscrape)
            (worldBothSucceed.outcome (urlFor none .toscrape))
          ++ scrape_url worldBothSucceed.parse (urlFor none .goodreads)
              (worldBothSucceed.outcome (urlFor none .goodreads)) :=
  (C4_merge_order worldBothSucceed none _ (List.reverse_perm _)).1

end Quotia
